import Mathlib

/-!
Shallow embedding of the MassageBe Express backend (src/server.js) over its
PostgreSQL schema (src/config/database.js), together with proofs about the
request-authorization and per-user-resource-access pattern.

Modelling conventions:
* `VARCHAR`/`TEXT` columns are `String`, integer columns are `Int`, serial
  primary keys are `Nat`, `DECIMAL(5,2)` columns are `Rat`, timestamps are
  `Int` (seconds since an arbitrary epoch), booleans are `Bool`.
* The database is a record of three row lists plus the three serial
  sequences; a parameterized query is a Lean function on that record.
* `NOW()` is passed in as an explicit `now : Int` argument.
* The external identity provider (`admin.auth().verifyIdToken`) is passed in
  as a function `String → VerifyResult`; a thrown verification error is the
  `err` constructor carrying the error message.
* A handler returns the JSON response it sends plus the database it leaves
  behind; `Response.status` is the HTTP status and `Response.body` the JSON
  payload shape that matters to the claims.
* A store round trip that can fail (`await pool.query` throwing) is modelled
  where a claim needs it: `verifyFirebaseAt` lets the INSERT observe a later
  database state than the SELECT (an interleaved concurrent request), and
  `deleteAccount` takes an oracle saying which of its three DELETE statements
  fails, if any.
-/

namespace MassageBe

/-- A row of the `users` table. The `updated_at` column is omitted: no
handler in the verified claims reads it. -/
structure UserRow where
  userId : Nat
  firebaseUid : String
  email : String
  name : String
  age : Option Int
  weight : Option Rat
  height : Option Rat
  gender : Option String
  createdAt : Int
deriving DecidableEq

/-- A row of the `massage_sessions` table. -/
structure SessionRow where
  sessionId : Nat
  userId : Nat
  level : Int
  duration : Int
  heatEnabled : Bool
  rotateEnabled : Bool
  caloriesBurned : Int
  notes : Option String
  startedAt : Int
  endedAt : Int
  createdAt : Int
deriving DecidableEq

/-- A row of the `preferences` table. `notification_time` is kept as the
string the handlers read and write. -/
structure PrefRow where
  preferenceId : Nat
  userId : Nat
  favoriteLevel : Int
  defaultDuration : Int
  enableHeatByDefault : Bool
  enableNotifications : Bool
  notificationTime : String
  theme : String
  language : String
  createdAt : Int
  updatedAt : Int
deriving DecidableEq

/-- The relational store: the three tables and their serial sequences. -/
structure DB where
  users : List UserRow
  sessions : List SessionRow
  prefs : List PrefRow
  nextUserId : Nat
  nextSessionId : Nat
  nextPrefId : Nat
deriving DecidableEq

def emptyDB : DB := ⟨[], [], [], 1, 1, 1⟩

/-- The seven preference fields the GET /api/preferences response exposes. -/
structure PrefsView where
  favoriteLevel : Int
  defaultDuration : Int
  enableHeatByDefault : Bool
  enableNotifications : Bool
  notificationTime : String
  theme : String
  language : String
deriving DecidableEq

/-- The columns selected by GET /api/sessions for each row. -/
structure SessionView where
  sessionId : Nat
  level : Int
  duration : Int
  heatEnabled : Bool
  rotateEnabled : Bool
  caloriesBurned : Int
  notes : Option String
  startedAt : Int
  endedAt : Int
deriving DecidableEq

/-- The statistics object of GET /api/sessions/statistics. `avgLevel` is the
exact rational average (the float formatting of `AVG`/`parseFloat` is
abstracted to exact arithmetic; division by an empty count yields 0, matching
`parseFloat(null) || 0`). -/
structure StatsView where
  totalSessions : Nat
  totalMinutes : Int
  totalCalories : Int
  avgLevel : Rat
  heatUsagePercent : Int
  dateRange : Int
deriving DecidableEq

/-- The summary object of GET /api/analytics/summary. -/
structure SummaryView where
  totalSessions : Nat
  avgHeartRate : Int
  avgSpO2 : Int
  mostUsedLevel : Int
  totalMinutes : Int
  totalCalories : Int
deriving DecidableEq

/-- The JSON payload shapes the handlers send. -/
inductive Body where
  | errorMsg (msg : String)
  | verifyOk (token : String) (user : UserRow)
  | meOk (user : UserRow)
  | deleteOk
  | sessionCreated (s : SessionRow)
  | sessionsOk (count : Nat) (sessions : List SessionView)
  | statsOk (st : StatsView)
  | prefsOk (p : PrefsView)
  | prefsUpdatedOk
  | summaryOk (s : SummaryView)
deriving DecidableEq

structure Response where
  status : Nat
  body : Body
deriving DecidableEq

/-- Outcome of `admin.auth().verifyIdToken(token)`: success yields the
decoded token's `uid` and `email`; any failure (expired, malformed, revoked,
provider unreachable) throws an error carrying a message. -/
inductive VerifyResult where
  | ok (uid : String) (email : String)
  | err (msg : String)

/-- JS `s.startsWith(pre)`, computed structurally over the character lists
(so the kernel can evaluate it; equivalent to `String.startsWith`). -/
def strStartsWith (s pre : String) : Bool :=
  pre.data.isPrefixOf s.data

/-- Worker for `jsSplit`: splits `rest` at every occurrence of the non-empty
separator `sep`, carrying the current chunk reversed in `acc`. `fuel` is a
structural-recursion bound; every call consumes at least one input character,
so `rest.length + 1` fuel always suffices. -/
def splitCharsAux (sep : List Char) : Nat → List Char → List Char →
    List (List Char)
  | 0, acc, rest => [acc.reverse ++ rest]
  | _ + 1, acc, [] => [acc.reverse]
  | fuel + 1, acc, c :: cs =>
    if sep.isPrefixOf (c :: cs) then
      acc.reverse :: splitCharsAux sep fuel [] ((c :: cs).drop sep.length)
    else
      splitCharsAux sep fuel (c :: acc) cs

/-- JS `s.split(sep)` for a non-empty separator (the empty separator is never
used by the handlers and falls back to `[s]` as in `String.splitOn`). -/
def jsSplit (s sep : String) : List String :=
  if sep.data = [] then [s]
  else (splitCharsAux sep.data (s.data.length + 1) [] s.data).map String.mk

/-- JS `authHeader.split("Bearer ")[1]`: the bearer token carried by the
Authorization header. -/
def bearerToken (h : String) : String :=
  ((jsSplit h "Bearer ").drop 1).headD ""

/-- The `verifyToken` middleware (src/server.js lines 25-44): extract the
bearer token from the Authorization header, verify it, and either attach
`(firebaseUid, email)` to the request or answer 401. -/
def verifyTokenMw (verify : String → VerifyResult) (authHeader : Option String) :
    Except Response (String × String) :=
  match authHeader with
  | none => Except.error ⟨401, Body.errorMsg "No token provided"⟩
  | some h =>
    if strStartsWith h "Bearer " then
      match verify (bearerToken h) with
      | VerifyResult.ok uid email => Except.ok (uid, email)
      | VerifyResult.err _ => Except.error ⟨401, Body.errorMsg "Invalid token"⟩
    else
      Except.error ⟨401, Body.errorMsg "No token provided"⟩

/-- `SELECT * FROM users WHERE firebase_uid = $1`, first row if any. -/
def findUserByUid (db : DB) (uid : String) : Option UserRow :=
  db.users.find? (fun u => u.firebaseUid == uid)

/-- JS `email.split("@")[0]`: the part of the email before the first `@`. -/
def emailLocalPart (email : String) : String :=
  (jsSplit email "@").headD ""

/-- Message of a PostgreSQL unique-constraint violation on `users`. -/
def dupKeyMsg : String := "duplicate key value violates unique constraint"

/-- The row `INSERT INTO users (firebase_uid, email, name, created_at)
VALUES ($1,$2,$3,NOW()) RETURNING *` hands back: the serial `user_id`, the
three supplied columns, NULL profile fields. -/
def insertedUser (now : Int) (db : DB) (uid email name : String) : UserRow :=
  { userId := db.nextUserId, firebaseUid := uid, email := email,
    name := name, age := none, weight := none, height := none,
    gender := none, createdAt := now }

/-- `INSERT INTO users (firebase_uid, email, name, created_at) VALUES
($1,$2,$3,NOW()) RETURNING *`, enforcing the schema's UNIQUE constraints on
`firebase_uid` and `email`. -/
def insertUser (now : Int) (uid email name : String) (db : DB) :
    Except String (UserRow × DB) :=
  if db.users.any (fun u => u.firebaseUid == uid) then
    Except.error dupKeyMsg
  else if db.users.any (fun u => u.email == email) then
    Except.error dupKeyMsg
  else
    let u : UserRow := insertedUser now db uid email name
    Except.ok (u, { db with users := db.users ++ [u],
                            nextUserId := db.nextUserId + 1 })

/-- POST /api/auth/verify-firebase (src/server.js lines 110-141), with the
interleaving made explicit: the SELECT observes `dbSel` while the INSERT
executes against `dbIns` — the state after any writes committed by
concurrent requests between the handler's two awaits. Any error thrown
inside the try (verification failure or insert failure) lands in the catch,
which answers `401 { error: error.message }`. -/
def verifyFirebaseAt (verify : String → VerifyResult) (now : Int)
    (firebaseToken : String) (dbSel dbIns : DB) : Response × DB :=
  match verify firebaseToken with
  | VerifyResult.err m => (⟨401, Body.errorMsg m⟩, dbIns)
  | VerifyResult.ok uid email =>
    match findUserByUid dbSel uid with
    | some u => (⟨200, Body.verifyOk firebaseToken u⟩, dbIns)
    | none =>
      match insertUser now uid email (emailLocalPart email) dbIns with
      | Except.ok (u, db') => (⟨200, Body.verifyOk firebaseToken u⟩, db')
      | Except.error m => (⟨401, Body.errorMsg m⟩, dbIns)

/-- POST /api/auth/verify-firebase, sequential run (no interleaved writes
between the SELECT and the INSERT). -/
def verifyFirebase (verify : String → VerifyResult) (now : Int)
    (firebaseToken : String) (db : DB) : Response × DB :=
  verifyFirebaseAt verify now firebaseToken db db

/-- GET /api/auth/me (src/server.js lines 144-162), after the middleware
attached `firebaseUid`. -/
def getMe (firebaseUid : String) (db : DB) : Response :=
  match findUserByUid db firebaseUid with
  | none => ⟨404, Body.errorMsg "User not found"⟩
  | some u => ⟨200, Body.meOk u⟩

/-- Error surfaced when a modelled store round trip fails. -/
def storeFailMsg : String := "store failure"

/-- `DELETE FROM massage_sessions WHERE user_id = (SELECT user_id FROM users
WHERE firebase_uid = $1)`. An empty subselect compares against NULL and
deletes nothing. -/
def deleteSessionsOf (db : DB) (firebaseUid : String) : DB :=
  match findUserByUid db firebaseUid with
  | none => db
  | some u =>
    { db with sessions := db.sessions.filter (fun s => !(s.userId == u.userId)) }

/-- `DELETE FROM preferences WHERE user_id = (SELECT user_id FROM users
WHERE firebase_uid = $1)`. -/
def deletePrefsOf (db : DB) (firebaseUid : String) : DB :=
  match findUserByUid db firebaseUid with
  | none => db
  | some u =>
    { db with prefs := db.prefs.filter (fun p => !(p.userId == u.userId)) }

/-- `DELETE FROM users WHERE firebase_uid = $1`. -/
def deleteUserOf (db : DB) (firebaseUid : String) : DB :=
  { db with users := db.users.filter (fun u => !(u.firebaseUid == firebaseUid)) }

/-- DELETE /api/auth/account (src/server.js lines 188-210): three separate
awaited DELETE statements, sessions then preferences then user, with no
surrounding transaction. `failAt = some k` models the store throwing on the
k-th statement (0-indexed); the catch then answers 500 and the statements
already executed remain committed. `failAt = none` is the failure-free run. -/
def deleteAccount (failAt : Option (Fin 3)) (firebaseUid : String) (db : DB) :
    Response × DB :=
  if failAt = some 0 then (⟨500, Body.errorMsg storeFailMsg⟩, db)
  else
    let db1 := deleteSessionsOf db firebaseUid
    if failAt = some 1 then (⟨500, Body.errorMsg storeFailMsg⟩, db1)
    else
      let db2 := deletePrefsOf db1 firebaseUid
      if failAt = some 2 then (⟨500, Body.errorMsg storeFailMsg⟩, db2)
      else
        (⟨200, Body.deleteOk⟩, deleteUserOf db2 firebaseUid)

/-- `INSERT INTO massage_sessions ... RETURNING *`, enforcing the CHECK
constraints of src/config/database.js (level 1..10, duration > 0,
calories_burned ≥ 0, and `valid_session_time`: ended_at > started_at). -/
def insertSession (now : Int) (userId : Nat) (level duration : Int)
    (heat rotate : Bool) (calories : Int) (notes : Option String)
    (startedAt endedAt : Int) (db : DB) : Except String (SessionRow × DB) :=
  if ¬ (1 ≤ level ∧ level ≤ 10) then
    Except.error "new row violates check constraint on level"
  else if ¬ (0 < duration) then
    Except.error "new row violates check constraint on duration"
  else if ¬ (0 ≤ calories) then
    Except.error "new row violates check constraint on calories_burned"
  else if ¬ (startedAt < endedAt) then
    Except.error "new row violates check constraint valid_session_time"
  else
    let s : SessionRow :=
      { sessionId := db.nextSessionId, userId := userId, level := level,
        duration := duration, heatEnabled := heat, rotateEnabled := rotate,
        caloriesBurned := calories, notes := notes, startedAt := startedAt,
        endedAt := endedAt, createdAt := now }
    Except.ok (s, { db with sessions := db.sessions ++ [s],
                            nextSessionId := db.nextSessionId + 1 })

/-- The request body of POST /api/sessions. -/
structure SessionBody where
  level : Int
  duration : Int
  heatEnabled : Bool
  rotateEnabled : Bool
  caloriesBurned : Int
  notes : Option String
  startedAt : Int
  endedAt : Int
deriving DecidableEq

/-- POST /api/sessions (src/server.js lines 215-270): resolve the user, then
insert; a store error lands in the catch, which answers 500. -/
def sessionsCreate (now : Int) (firebaseUid : String) (body : SessionBody)
    (db : DB) : Response × DB :=
  match findUserByUid db firebaseUid with
  | none => (⟨404, Body.errorMsg "User not found"⟩, db)
  | some u =>
    match insertSession now u.userId body.level body.duration body.heatEnabled
        body.rotateEnabled body.caloriesBurned body.notes body.startedAt
        body.endedAt db with
    | Except.error m => (⟨500, Body.errorMsg m⟩, db)
    | Except.ok (s, db') => (⟨200, Body.sessionCreated s⟩, db')

/-- JS `parseInt(q) || d`: `none` models an absent or unparsable parameter
(`parseInt` returned `NaN`); a parsed `0` is falsy and also falls back. -/
def jsParseIntOr (v : Option Int) (d : Int) : Int :=
  match v with
  | none => d
  | some n => if n == 0 then d else n

/-- `ORDER BY started_at DESC` as a relation on rows. -/
def startedDesc (a b : SessionRow) : Prop := b.startedAt ≤ a.startedAt

instance : DecidableRel startedDesc :=
  fun a b => inferInstanceAs (Decidable (b.startedAt ≤ a.startedAt))

instance : IsTotal SessionRow startedDesc :=
  ⟨fun a b => le_total b.startedAt a.startedAt⟩

instance : IsTrans SessionRow startedDesc :=
  ⟨fun _ _ _ h1 h2 => le_trans h2 h1⟩

/-- `ORDER BY started_at DESC`. -/
def sortByStartedDesc (l : List SessionRow) : List SessionRow :=
  List.insertionSort startedDesc l

def sessionView (s : SessionRow) : SessionView :=
  ⟨s.sessionId, s.level, s.duration, s.heatEnabled, s.rotateEnabled,
   s.caloriesBurned, s.notes, s.startedAt, s.endedAt⟩

/-- GET /api/sessions (src/server.js lines 273-308): resolve the user, then
`SELECT ... WHERE user_id = $1 ORDER BY started_at DESC LIMIT $2 OFFSET $3`. -/
def sessionsList (firebaseUid : String) (limitQ offsetQ : Option Int)
    (db : DB) : Response × DB :=
  let lim := jsParseIntOr limitQ 50
  let off := jsParseIntOr offsetQ 0
  match findUserByUid db firebaseUid with
  | none => (⟨404, Body.errorMsg "User not found"⟩, db)
  | some u =>
    let rows :=
      (((sortByStartedDesc
          (db.sessions.filter (fun s => s.userId == u.userId))).drop
         off.toNat).take lim.toNat)
    (⟨200, Body.sessionsOk rows.length (rows.map sessionView)⟩, db)

/-- GET /api/sessions/statistics (src/server.js lines 311-354): aggregates
over the user's sessions started within the last `days` days. Seconds per
day make the `INTERVAL` arithmetic explicit. -/
def sessionsStatistics (now : Int) (firebaseUid : String) (daysQ : Option Int)
    (db : DB) : Response × DB :=
  let days := jsParseIntOr daysQ 30
  match findUserByUid db firebaseUid with
  | none => (⟨404, Body.errorMsg "User not found"⟩, db)
  | some u =>
    let rows := db.sessions.filter
      (fun s => s.userId == u.userId && decide (now - days * 86400 ≤ s.startedAt))
    let heatCount : Int := ((rows.filter (fun s => s.heatEnabled)).length : Int)
    (⟨200, Body.statsOk
      { totalSessions := rows.length
        totalMinutes := (rows.map (fun s => s.duration)).sum
        totalCalories := (rows.map (fun s => s.caloriesBurned)).sum
        avgLevel := ((rows.map (fun s => (s.level : Rat))).sum) / (rows.length : Rat)
        heatUsagePercent :=
          if rows.length == 0 then 0 else heatCount * 100 / (rows.length : Int)
        dateRange := days }⟩, db)

/-- PostgreSQL `MODE() WITHIN GROUP (ORDER BY level)`: the most frequent
value, ties broken toward the smallest (first in the ordered group); `none`
on an empty group (SQL NULL). -/
def modeLevel (l : List Int) : Option Int :=
  (List.insertionSort (· ≤ ·) l).eraseDups.foldl
    (fun acc v =>
      match acc with
      | none => some v
      | some b => if l.count b < l.count v then some v else acc) none

/-- GET /api/analytics/summary (src/server.js lines 482-522). The
`parseInt(stats.most_used_level) || 3` fallback fires on NULL (no sessions)
and on a mode of 0. -/
def analyticsSummary (firebaseUid : String) (db : DB) : Response × DB :=
  match findUserByUid db firebaseUid with
  | none => (⟨404, Body.errorMsg "User not found"⟩, db)
  | some u =>
    let rows := db.sessions.filter (fun s => s.userId == u.userId)
    let mostUsed : Int :=
      match modeLevel (rows.map (fun s => s.level)) with
      | none => 3
      | some v => if v == 0 then 3 else v
    (⟨200, Body.summaryOk
      { totalSessions := rows.length
        avgHeartRate := 0
        avgSpO2 := 0
        mostUsedLevel := mostUsed
        totalMinutes := (rows.map (fun s => s.duration)).sum
        totalCalories := (rows.map (fun s => s.caloriesBurned)).sum }⟩, db)

/-- The row inserted by GET /api/preferences when none exists: `INSERT INTO
preferences (user_id, favorite_level, default_duration,
enable_heat_by_default, enable_notifications, notification_time, theme,
language, created_at) VALUES ($1, 3, 15, false, true, '20:00', 'light',
'vi', NOW()) RETURNING *`. -/
def defaultPrefRow (now : Int) (userId prefId : Nat) : PrefRow :=
  { preferenceId := prefId, userId := userId, favoriteLevel := 3,
    defaultDuration := 15, enableHeatByDefault := false,
    enableNotifications := true, notificationTime := "20:00",
    theme := "light", language := "vi", createdAt := now, updatedAt := now }

def prefsView (p : PrefRow) : PrefsView :=
  ⟨p.favoriteLevel, p.defaultDuration, p.enableHeatByDefault,
   p.enableNotifications, p.notificationTime, p.theme, p.language⟩

/-- GET /api/preferences (src/server.js lines 359-405): resolve the user,
read the preference row, creating the defaults row first when none exists. -/
def prefsGet (now : Int) (firebaseUid : String) (db : DB) : Response × DB :=
  match findUserByUid db firebaseUid with
  | none => (⟨404, Body.errorMsg "User not found"⟩, db)
  | some u =>
    match db.prefs.find? (fun p => p.userId == u.userId) with
    | some p => (⟨200, Body.prefsOk (prefsView p)⟩, db)
    | none =>
      let p := defaultPrefRow now u.userId db.nextPrefId
      (⟨200, Body.prefsOk (prefsView p)⟩,
       { db with prefs := db.prefs ++ [p], nextPrefId := db.nextPrefId + 1 })

/-- The sparse request body of PUT /api/preferences: `none` models a field
absent from the JSON body (`undefined` in the handler's checks). -/
structure PrefPatch where
  favoriteLevel : Option Int
  defaultDuration : Option Int
  enableHeatByDefault : Option Bool
  enableNotifications : Option Bool
  notificationTime : Option String
  theme : Option String
  language : Option String
deriving DecidableEq

/-- The patch with every field absent. -/
def emptyPatch : PrefPatch := ⟨none, none, none, none, none, none, none⟩

/-- The schema's CHECK constraints on the preference columns a patch may
set (src/config/database.js lines 88-100). -/
def patchValidB (patch : PrefPatch) : Bool :=
  (patch.favoriteLevel.all (fun v => decide (1 ≤ v) && decide (v ≤ 10))) &&
  (patch.defaultDuration.all (fun v => decide (0 < v))) &&
  (patch.theme.all (fun t => t == "light" || t == "dark" || t == "auto")) &&
  (patch.language.all (fun l =>
    l == "vi" || l == "en" || l == "zh" || l == "ja" || l == "ko"))

/-- The dynamic `SET` list of PUT /api/preferences (src/server.js lines
432-468) applied to one matching row: each field present in the body is
assigned, absent fields are left alone, and `updated_at = NOW()` is always
appended. -/
def applyPatch (now : Int) (patch : PrefPatch) (p : PrefRow) : PrefRow :=
  { p with
    favoriteLevel := patch.favoriteLevel.getD p.favoriteLevel,
    defaultDuration := patch.defaultDuration.getD p.defaultDuration,
    enableHeatByDefault := patch.enableHeatByDefault.getD p.enableHeatByDefault,
    enableNotifications := patch.enableNotifications.getD p.enableNotifications,
    notificationTime := patch.notificationTime.getD p.notificationTime,
    theme := patch.theme.getD p.theme,
    language := patch.language.getD p.language,
    updatedAt := now }

/-- PUT /api/preferences (src/server.js lines 408-479): resolve the user,
run the dynamically built `UPDATE preferences SET ... WHERE user_id = $n`,
and answer success unconditionally. The UPDATE throws (landing in the catch,
a 500) exactly when it touches a row and a supplied value violates a CHECK
constraint; updating zero rows is a silent success. -/
def prefsUpdate (now : Int) (firebaseUid : String) (patch : PrefPatch)
    (db : DB) : Response × DB :=
  match findUserByUid db firebaseUid with
  | none => (⟨404, Body.errorMsg "User not found"⟩, db)
  | some u =>
    if db.prefs.any (fun p => p.userId == u.userId) && !(patchValidB patch) then
      (⟨500, Body.errorMsg "new row violates check constraint"⟩, db)
    else
      (⟨200, Body.prefsUpdatedOk⟩,
       { db with prefs := (db.prefs.map
          (fun p => if p.userId == u.userId then applyPatch now patch p else p)) })

/-! ## List helper lemmas -/

theorem find?_eq_head?_filter {α : Type} (p : α → Bool) (l : List α) :
    l.find? p = (l.filter p).head? :=
  (List.filter_head? p l).symm

theorem any_eq_false_iff_find?_eq_none {α : Type} (p : α → Bool) (l : List α) :
    l.any p = false ↔ l.find? p = none := by
  induction l with
  | nil => simp
  | cons a t ih =>
    by_cases h : p a = true
    · simp [h]
    · simp [h, ih]

theorem find?_append_of_none {α : Type} (p : α → Bool) (l₁ l₂ : List α)
    (h : l₁.find? p = none) : (l₁ ++ l₂).find? p = l₂.find? p := by
  induction l₁ with
  | nil => rfl
  | cons a t ih =>
    by_cases ha : p a = true
    · simp [ha] at h
    · simp only [List.find?_cons_of_neg _ ha] at h
      rw [List.cons_append, List.find?_cons_of_neg _ ha]
      exact ih h

theorem find?_filter_not {α : Type} (p : α → Bool) (l : List α) :
    (l.filter (fun x => !(p x))).find? p = none := by
  induction l with
  | nil => rfl
  | cons a t ih =>
    by_cases h : p a = true
    · simp [h, ih]
    · simp [h, ih]

theorem map_ite_eq_self {α : Type} (p : α → Bool) (g : α → α) (l : List α)
    (h : l.any p = false) :
    l.map (fun x => if p x then g x else x) = l := by
  induction l with
  | nil => rfl
  | cons a t ih =>
    simp only [List.any_cons, Bool.or_eq_false_iff] at h
    simp [h.1, ih h.2]

theorem find?_map_ite {α : Type} (p : α → Bool) (g : α → α)
    (hg : ∀ x, p x = true → p (g x) = true) (l : List α) (x : α)
    (h : l.find? p = some x) :
    (l.map (fun y => if p y then g y else y)).find? p = some (g x) := by
  induction l with
  | nil => simp at h
  | cons a t ih =>
    by_cases ha : p a = true
    · have hax : a = x := by simpa [List.find?_cons_of_pos _ ha] using h
      subst hax
      simp [ha, List.find?_cons_of_pos _ (hg a ha)]
    · simp only [List.find?_cons_of_neg _ ha] at h
      rw [List.map_cons, if_neg ha, List.find?_cons_of_neg _ ha]
      exact ih h

theorem filter_and_eq_filter_filter {α : Type} (p q : α → Bool) (l : List α) :
    l.filter (fun a => p a && q a) = (l.filter p).filter q := by
  induction l with
  | nil => rfl
  | cons a t ih =>
    by_cases hp : p a = true
    · by_cases hq : q a = true
      · simp [hp, hq, ih]
      · simp [hp, hq, ih]
    · simp [hp, ih]

theorem any_eq_not_isEmpty_filter {α : Type} (p : α → Bool) (l : List α) :
    l.any p = !(l.filter p).isEmpty := by
  induction l with
  | nil => rfl
  | cons a t ih =>
    by_cases h : p a = true
    · simp [h]
    · simp [h, ih]

/-! ## Sample data used by witnesses and counterexamples -/

/-- The verifier that accepts every token as subject `uid_1`, email
`a@x.com`. -/
def vfOK : String → VerifyResult := fun _ => VerifyResult.ok "uid_1" "a@x.com"

/-- The user row verify-firebase creates for subject `uid_1` / `a@x.com`. -/
def userU1 : UserRow :=
  { userId := 1, firebaseUid := "uid_1", email := "a@x.com", name := "a",
    age := none, weight := none, height := none, gender := none, createdAt := 0 }

/-- A store holding only `userU1` (somebody else's first login committed). -/
def dbWithU1 : DB := { emptyDB with users := [userU1], nextUserId := 2 }

/-! ## C1: get-or-create under a first-login race -/

/-- C1 counterexample. The claim says a uniqueness violation on the insert is
re-read and the existing row returned, with no duplicate-key error reaching
the client. On the code, when the SELECT (against the empty store) misses but
a concurrent request has already created the row by the time the INSERT runs,
the insert's duplicate-key error propagates to the route's catch, which sends
it to the client as a 401 whose body carries the duplicate-key message — no
re-read happens. -/
theorem verifyFirebase_race_leaks_dup_error :
    verifyFirebaseAt vfOK 0 "tok" emptyDB dbWithU1 =
      (⟨401, Body.errorMsg dupKeyMsg⟩, dbWithU1) := by
  decide

/-- C1 (amended): for a valid token whose subject has no User row, the
sequential get-or-create run creates exactly one User row for that subject
and returns it; but when the insert runs against a store in which a
concurrent request has already created a row for the subject, the handler
does not re-read — it answers 401 with the duplicate-key error message, so
the error does reach the caller. -/
theorem verifyFirebase_first_login (verify : String → VerifyResult)
    (now : Int) (tok uid email : String) (db dbIns : DB)
    (hv : verify tok = VerifyResult.ok uid email)
    (hnone : findUserByUid db uid = none)
    (hmail : db.users.any (fun u => u.email == email) = false) :
    (∃ u : UserRow,
      verifyFirebase verify now tok db =
        (⟨200, Body.verifyOk tok u⟩,
         { db with users := db.users ++ [u],
                   nextUserId := db.nextUserId + 1 }) ∧
      u.firebaseUid = uid ∧ u.userId = db.nextUserId) ∧
    (dbIns.users.any (fun u => u.firebaseUid == uid) = true →
      verifyFirebaseAt verify now tok db dbIns =
        (⟨401, Body.errorMsg dupKeyMsg⟩, dbIns)) := by
  have hany : db.users.any (fun u => u.firebaseUid == uid) = false :=
    (any_eq_false_iff_find?_eq_none _ _).mpr hnone
  constructor
  · refine ⟨insertedUser now db uid email (emailLocalPart email), ?_, rfl, rfl⟩
    simp [verifyFirebase, verifyFirebaseAt, hv, hnone, insertUser, hany, hmail]
  · intro hdup
    simp [verifyFirebaseAt, hv, hnone, insertUser, hdup]

/-- C1 witness: the amended theorem at the concrete race of the
counterexample — subject `uid_1` unseen by the SELECT, already inserted by
the time of the INSERT. -/
theorem verifyFirebase_first_login_witness :
    (vfOK "tok" = VerifyResult.ok "uid_1" "a@x.com" ∧
     findUserByUid emptyDB "uid_1" = none ∧
     emptyDB.users.any (fun u => u.email == "a@x.com") = false) ∧
    ((∃ u : UserRow,
      verifyFirebase vfOK 0 "tok" emptyDB =
        (⟨200, Body.verifyOk "tok" u⟩,
         { emptyDB with users := emptyDB.users ++ [u],
                        nextUserId := emptyDB.nextUserId + 1 }) ∧
      u.firebaseUid = "uid_1" ∧ u.userId = emptyDB.nextUserId) ∧
    (dbWithU1.users.any (fun u => u.firebaseUid == "uid_1") = true →
      verifyFirebaseAt vfOK 0 "tok" emptyDB dbWithU1 =
        (⟨401, Body.errorMsg dupKeyMsg⟩, dbWithU1))) :=
  ⟨⟨rfl, rfl, rfl⟩,
   verifyFirebase_first_login vfOK 0 "tok" "uid_1" "a@x.com" emptyDB dbWithU1
     rfl rfl rfl⟩

/-! ## C4: indistinguishability of verification-failure responses -/

/-- A verifier failing as an expired token. -/
def vErrExpired : String → VerifyResult :=
  fun _ => VerifyResult.err "Firebase ID token has expired"

/-- A verifier failing as a malformed token. -/
def vErrMalformed : String → VerifyResult :=
  fun _ => VerifyResult.err "Decoding Firebase ID token failed"

/-- C4 counterexample. The claim says any two distinct verification-failure
causes produce identical error response bodies. The verify-firebase route's
catch answers `401 { error: error.message }`, so an expired token and a
malformed token produce different bodies — the cause is surfaced. -/
theorem verifyFirebase_failure_bodies_differ :
    (verifyFirebase vErrExpired 0 "tok" emptyDB).1.status = 401 ∧
    (verifyFirebase vErrMalformed 0 "tok" emptyDB).1.status = 401 ∧
    (verifyFirebase vErrExpired 0 "tok" emptyDB).1 ≠
      (verifyFirebase vErrMalformed 0 "tok" emptyDB).1 := by
  decide

/-- C4 (amended): every verification failure yields HTTP 401 in both places,
but only the `verifyToken` middleware folds all causes into the single fixed
body `{ error: "Invalid token" }`; the verify-firebase route's catch puts the
underlying error message in the body, so there the cause is distinguishable. -/
theorem verification_failure_responses (verify : String → VerifyResult)
    (hdr tok m : String) (now : Int) (db : DB)
    (hb : strStartsWith hdr "Bearer " = true)
    (hm : verify (bearerToken hdr) = VerifyResult.err m)
    (ht : verify tok = VerifyResult.err m) :
    verifyTokenMw verify (some hdr) =
      Except.error ⟨401, Body.errorMsg "Invalid token"⟩ ∧
    verifyFirebase verify now tok db = (⟨401, Body.errorMsg m⟩, db) := by
  constructor
  · simp [verifyTokenMw, hb, hm]
  · simp [verifyFirebase, verifyFirebaseAt, ht]

/-- C4 witness: the amended theorem at an expired-token verifier and the
header `Bearer tok`. -/
theorem verification_failure_responses_witness :
    ((strStartsWith "Bearer tok" "Bearer " = true) ∧
     vErrExpired (bearerToken "Bearer tok") =
       VerifyResult.err "Firebase ID token has expired" ∧
     vErrExpired "tok" = VerifyResult.err "Firebase ID token has expired") ∧
    (verifyTokenMw vErrExpired (some "Bearer tok") =
      Except.error ⟨401, Body.errorMsg "Invalid token"⟩ ∧
    verifyFirebase vErrExpired 0 "tok" emptyDB =
      (⟨401, Body.errorMsg "Firebase ID token has expired"⟩, emptyDB)) :=
  ⟨⟨by decide, rfl, rfl⟩,
   verification_failure_responses vErrExpired "Bearer tok" "tok"
     "Firebase ID token has expired" 0 emptyDB (by decide) rfl rfl⟩

/-! ## C7: default display name from the email local-part, idempotent resolution -/

/-- C7: for a verified `(subject_id, email)` pair with no existing User row
(and no row holding that email), the first verify-firebase call creates one
User whose name is the email's local-part and returns it; a second call with
the same subject finds that row and returns the same user, creating nothing. -/
theorem verifyFirebase_names_user_from_email (verify : String → VerifyResult)
    (now now2 : Int) (tok tok2 uid email : String) (db : DB)
    (hv : verify tok = VerifyResult.ok uid email)
    (hv2 : verify tok2 = VerifyResult.ok uid email)
    (hnone : findUserByUid db uid = none)
    (hmail : db.users.any (fun u => u.email == email) = false) :
    ∃ u : UserRow, ∃ db' : DB,
      verifyFirebase verify now tok db = (⟨200, Body.verifyOk tok u⟩, db') ∧
      u.name = emailLocalPart email ∧ u.firebaseUid = uid ∧ u.email = email ∧
      u.userId = db.nextUserId ∧
      db'.users = db.users ++ [u] ∧
      verifyFirebase verify now2 tok2 db' = (⟨200, Body.verifyOk tok2 u⟩, db') := by
  have hany : db.users.any (fun u => u.firebaseUid == uid) = false :=
    (any_eq_false_iff_find?_eq_none _ _).mpr hnone
  refine ⟨insertedUser now db uid email (emailLocalPart email),
          { db with
              users := db.users ++ [insertedUser now db uid email (emailLocalPart email)],
              nextUserId := db.nextUserId + 1 },
          ?_, rfl, rfl, rfl, rfl, rfl, ?_⟩
  · simp [verifyFirebase, verifyFirebaseAt, hv, hnone, insertUser, hany, hmail]
  · have hfind :
        findUserByUid
          { db with
              users := db.users ++ [insertedUser now db uid email (emailLocalPart email)],
              nextUserId := db.nextUserId + 1 } uid =
          some (insertedUser now db uid email (emailLocalPart email)) := by
      unfold findUserByUid at hnone ⊢
      rw [find?_append_of_none _ _ _ hnone]
      simp [insertedUser]
    simp [verifyFirebase, verifyFirebaseAt, hv2, hfind]

/-- C7 witness: subject `uid_1`, email `a@x.com` — the created user is named
`a` and the second call returns the same `user_id` without a new row. -/
theorem verifyFirebase_names_user_from_email_witness :
    (vfOK "t1" = VerifyResult.ok "uid_1" "a@x.com" ∧
     vfOK "t2" = VerifyResult.ok "uid_1" "a@x.com" ∧
     findUserByUid emptyDB "uid_1" = none ∧
     emptyDB.users.any (fun u => u.email == "a@x.com") = false) ∧
    emailLocalPart "a@x.com" = "a" ∧
    (∃ u : UserRow, ∃ db' : DB,
      verifyFirebase vfOK 0 "t1" emptyDB = (⟨200, Body.verifyOk "t1" u⟩, db') ∧
      u.name = emailLocalPart "a@x.com" ∧ u.firebaseUid = "uid_1" ∧
      u.email = "a@x.com" ∧ u.userId = emptyDB.nextUserId ∧
      db'.users = emptyDB.users ++ [u] ∧
      verifyFirebase vfOK 1 "t2" db' = (⟨200, Body.verifyOk "t2" u⟩, db')) :=
  ⟨⟨rfl, rfl, rfl, rfl⟩, by decide,
   verifyFirebase_names_user_from_email vfOK 0 1 "t1" "t2" "uid_1" "a@x.com"
     emptyDB rfl rfl rfl rfl⟩

/-! ## C3: account deletion order and (non-)atomicity -/

/-- A registered user with firebase uid `A`. -/
def userA : UserRow :=
  { userId := 1, firebaseUid := "A", email := "a@x.com", name := "a",
    age := none, weight := none, height := none, gender := none, createdAt := 0 }

/-- A session of `userA` with the given id and start time. -/
def mkSessA (i : Nat) (t : Int) : SessionRow :=
  { sessionId := i, userId := 1, level := 3, duration := 10,
    heatEnabled := false, rotateEnabled := false, caloriesBurned := 5,
    notes := none, startedAt := t, endedAt := t + 600, createdAt := t }

/-- A preference row of `userA`. -/
def prefA : PrefRow :=
  { preferenceId := 1, userId := 1, favoriteLevel := 5, defaultDuration := 20,
    enableHeatByDefault := true, enableNotifications := true,
    notificationTime := "08:00", theme := "light", language := "vi",
    createdAt := 0, updatedAt := 0 }

/-- A store holding `userA` with one session and one preference row. -/
def dbA3 : DB :=
  { users := [userA], sessions := [mkSessA 1 10], prefs := [prefA],
    nextUserId := 2, nextSessionId := 2, nextPrefId := 2 }

/-- C3 counterexample. The claim says deletion is a single logical
transaction: all three entity types removed, or the state left unchanged.
When the store fails at the second DELETE (preferences), the already-executed
first DELETE stays committed: the subject's sessions are gone while their
user and preference rows remain — the state is neither unchanged nor fully
cleared. -/
theorem deleteAccount_not_atomic :
    ((deleteAccount (some 1) "A" dbA3).2.sessions = []) ∧
    ((deleteAccount (some 1) "A" dbA3).2.users.any
      (fun v => v.firebaseUid == "A") = true) ∧
    ((deleteAccount (some 1) "A" dbA3).2.prefs = dbA3.prefs) ∧
    ((deleteAccount (some 1) "A" dbA3).2 ≠ dbA3) := by
  decide

/-- C3 (amended): the three DELETE statements run in the dependency order
sessions, then preference, then user, and the failure-free run removes all
three entity types for the subject (after which `GET /auth/me` answers 404);
but the sequence is not a transaction — each statement commits on its own, so
a failure at statement k leaves the earlier deletions applied: failing at the
preferences DELETE keeps the user and preference rows while the sessions are
already gone, and failing at the users DELETE keeps only the user row. -/
theorem deleteAccount_effects (uid : String) (db : DB) (u : UserRow)
    (hu : findUserByUid db uid = some u) :
    (deleteAccount none uid db =
      (⟨200, Body.deleteOk⟩,
       { db with
           users := db.users.filter (fun v => !(v.firebaseUid == uid)),
           sessions := db.sessions.filter (fun s => !(s.userId == u.userId)),
           prefs := db.prefs.filter (fun p => !(p.userId == u.userId)) })) ∧
    getMe uid (deleteAccount none uid db).2 =
      ⟨404, Body.errorMsg "User not found"⟩ ∧
    (deleteAccount (some 0) uid db).2 = db ∧
    (deleteAccount (some 1) uid db).2 =
      { db with sessions := db.sessions.filter (fun s => !(s.userId == u.userId)) } ∧
    (deleteAccount (some 2) uid db).2 =
      { db with
          sessions := db.sessions.filter (fun s => !(s.userId == u.userId)),
          prefs := db.prefs.filter (fun p => !(p.userId == u.userId)) } ∧
    ∀ k : Fin 3, (deleteAccount (some k) uid db).1 =
      ⟨500, Body.errorMsg storeFailMsg⟩ := by
  have hu' : db.users.find? (fun v => v.firebaseUid == uid) = some u := hu
  have hmain : deleteAccount none uid db =
      (⟨200, Body.deleteOk⟩,
       { db with
           users := db.users.filter (fun v => !(v.firebaseUid == uid)),
           sessions := db.sessions.filter (fun s => !(s.userId == u.userId)),
           prefs := db.prefs.filter (fun p => !(p.userId == u.userId)) }) := by
    simp [deleteAccount, deleteSessionsOf, deletePrefsOf, deleteUserOf,
      findUserByUid, hu']
  have hgone :
      (db.users.filter (fun v => !(v.firebaseUid == uid))).find?
        (fun v => v.firebaseUid == uid) = none :=
    find?_filter_not (fun v => v.firebaseUid == uid) db.users
  refine ⟨hmain, ?_, ?_, ?_, ?_, ?_⟩
  · rw [hmain]
    simp [getMe, findUserByUid, hgone]
  · simp [deleteAccount]
  · simp [deleteAccount, deleteSessionsOf, findUserByUid, hu']
  · simp [deleteAccount, deleteSessionsOf, deletePrefsOf, findUserByUid, hu']
  · intro k
    fin_cases k <;>
      simp [deleteAccount, deleteSessionsOf, deletePrefsOf, findUserByUid, hu']

/-- C3 witness: the amended theorem at `dbA3` — `userA` with one session and
one preference row. -/
theorem deleteAccount_effects_witness :
    findUserByUid dbA3 "A" = some userA ∧
    ((deleteAccount none "A" dbA3 =
      (⟨200, Body.deleteOk⟩,
       { dbA3 with
           users := dbA3.users.filter (fun v => !(v.firebaseUid == "A")),
           sessions := dbA3.sessions.filter (fun s => !(s.userId == userA.userId)),
           prefs := dbA3.prefs.filter (fun p => !(p.userId == userA.userId)) })) ∧
    getMe "A" (deleteAccount none "A" dbA3).2 =
      ⟨404, Body.errorMsg "User not found"⟩ ∧
    (deleteAccount (some 0) "A" dbA3).2 = dbA3 ∧
    (deleteAccount (some 1) "A" dbA3).2 =
      { dbA3 with
          sessions := dbA3.sessions.filter (fun s => !(s.userId == userA.userId)) } ∧
    (deleteAccount (some 2) "A" dbA3).2 =
      { dbA3 with
          sessions := dbA3.sessions.filter (fun s => !(s.userId == userA.userId)),
          prefs := dbA3.prefs.filter (fun p => !(p.userId == userA.userId)) } ∧
    ∀ k : Fin 3, (deleteAccount (some k) "A" dbA3).1 =
      ⟨500, Body.errorMsg storeFailMsg⟩) :=
  ⟨rfl, deleteAccount_effects "A" dbA3 userA rfl⟩

/-! ## C9: sessions with ended_at ≤ started_at are rejected -/

theorem insertSession_error_of_bad_time (now : Int) (userId : Nat)
    (level duration : Int) (heat rotate : Bool) (calories : Int)
    (notes : Option String) (startedAt endedAt : Int) (db : DB)
    (hbad : endedAt ≤ startedAt) :
    ∃ m, insertSession now userId level duration heat rotate calories notes
      startedAt endedAt db = Except.error m := by
  unfold insertSession
  split_ifs with h1 h2 h3 h4
  · exact absurd h4 (not_lt.mpr hbad)
  · exact ⟨_, rfl⟩
  · exact ⟨_, rfl⟩
  · exact ⟨_, rfl⟩
  · exact ⟨_, rfl⟩

theorem insertSession_ok_sessions (now : Int) (userId : Nat)
    (level duration : Int) (heat rotate : Bool) (calories : Int)
    (notes : Option String) (startedAt endedAt : Int) (db : DB)
    (s' : SessionRow) (db' : DB)
    (h : insertSession now userId level duration heat rotate calories notes
      startedAt endedAt db = Except.ok (s', db')) :
    db'.sessions = db.sessions ++ [s'] ∧ s'.startedAt < s'.endedAt := by
  unfold insertSession at h
  split_ifs at h with h1 h2 h3 h4
  have hpair := Except.ok.inj h
  have h5 := congrArg Prod.fst hpair
  have h6 := congrArg Prod.snd hpair
  subst h5
  subst h6
  exact ⟨rfl, h4⟩

/-- C9: with the schema of src/config/database.js in force (constraint
`valid_session_time CHECK (ended_at > started_at)`), a session-creation
request with `ended_at ≤ started_at` is rejected — the store error surfaces
as a 500 and the database is unchanged — and session insertion preserves the
invariant that every stored session ends strictly after it starts. -/
theorem sessionsCreate_rejects_bad_time (now : Int) (uid : String)
    (body : SessionBody) (db : DB) (u : UserRow)
    (hu : findUserByUid db uid = some u)
    (hbad : body.endedAt ≤ body.startedAt) :
    ((sessionsCreate now uid body db).1.status = 500 ∧
     (sessionsCreate now uid body db).2 = db) ∧
    (∀ body' : SessionBody,
      (∀ s ∈ db.sessions, s.startedAt < s.endedAt) →
      ∀ s ∈ (sessionsCreate now uid body' db).2.sessions,
        s.startedAt < s.endedAt) := by
  constructor
  · obtain ⟨m, hm⟩ := insertSession_error_of_bad_time now u.userId body.level
      body.duration body.heatEnabled body.rotateEnabled body.caloriesBurned
      body.notes body.startedAt body.endedAt db hbad
    simp [sessionsCreate, hu, hm]
  · intro body' hinv s hs
    rcases hres : insertSession now u.userId body'.level body'.duration
        body'.heatEnabled body'.rotateEnabled body'.caloriesBurned body'.notes
        body'.startedAt body'.endedAt db with m | ⟨s', db'⟩
    · simp only [sessionsCreate, hu, hres] at hs
      exact hinv s hs
    · obtain ⟨hsess, hlt⟩ := insertSession_ok_sessions now u.userId body'.level
        body'.duration body'.heatEnabled body'.rotateEnabled
        body'.caloriesBurned body'.notes body'.startedAt body'.endedAt db
        s' db' hres
      simp only [sessionsCreate, hu, hres, hsess] at hs
      rcases List.mem_append.mp hs with hold | hnew
      · exact hinv s hold
      · rw [List.mem_singleton.mp hnew]
        exact hlt

/-- C9 witness: `userA`'s store and a request whose end equals its start. -/
theorem sessionsCreate_rejects_bad_time_witness :
    (findUserByUid dbA3 "A" = some userA ∧
     ((⟨3, 10, false, false, 5, none, 100, 100⟩ : SessionBody).endedAt ≤
      (⟨3, 10, false, false, 5, none, 100, 100⟩ : SessionBody).startedAt)) ∧
    (((sessionsCreate 0 "A" ⟨3, 10, false, false, 5, none, 100, 100⟩ dbA3).1.status = 500 ∧
      (sessionsCreate 0 "A" ⟨3, 10, false, false, 5, none, 100, 100⟩ dbA3).2 = dbA3) ∧
    (∀ body' : SessionBody,
      (∀ s ∈ dbA3.sessions, s.startedAt < s.endedAt) →
      ∀ s ∈ (sessionsCreate 0 "A" body' dbA3).2.sessions,
        s.startedAt < s.endedAt)) :=
  ⟨⟨rfl, by decide⟩,
   sessionsCreate_rejects_bad_time 0 "A" ⟨3, 10, false, false, 5, none, 100, 100⟩
     dbA3 userA rfl (by decide)⟩

/-! ## C10: preference update before the first read is a silent no-op -/

/-- A store holding `userA` with five sessions and no preference row. -/
def dbA5 : DB :=
  { users := [userA],
    sessions := [mkSessA 1 10, mkSessA 2 50, mkSessA 3 30, mkSessA 4 20,
      mkSessA 5 40],
    prefs := [], nextUserId := 2, nextSessionId := 6, nextPrefId := 1 }

/-- The patch `{theme: "dark"}`. -/
def patchDark : PrefPatch := { emptyPatch with theme := some "dark" }

/-- C10: for an existing user with no Preference row, PUT /preferences with
any set of fields answers 200 `success: true` while creating no row and
changing nothing — the dynamically built UPDATE matches zero rows and the
handler reports success unconditionally. -/
theorem prefsUpdate_no_row_is_noop (now : Int) (uid : String)
    (patch : PrefPatch) (db : DB) (u : UserRow)
    (hu : findUserByUid db uid = some u)
    (hno : db.prefs.any (fun p => p.userId == u.userId) = false) :
    prefsUpdate now uid patch db = (⟨200, Body.prefsUpdatedOk⟩, db) := by
  have hmap := map_ite_eq_self (fun p : PrefRow => p.userId == u.userId)
    (applyPatch now patch) db.prefs hno
  simp only [prefsUpdate, hu, hno, Bool.false_and, Bool.false_eq_true,
    if_false]
  rw [hmap]

/-- C10 witness: `userA` with no preference row; the update `{theme: "dark"}`
answers success and leaves the store untouched. -/
theorem prefsUpdate_no_row_is_noop_witness :
    (findUserByUid dbA5 "A" = some userA ∧
     dbA5.prefs.any (fun p => p.userId == userA.userId) = false) ∧
    prefsUpdate 7 "A" patchDark dbA5 = (⟨200, Body.prefsUpdatedOk⟩, dbA5) :=
  ⟨⟨rfl, rfl⟩, prefsUpdate_no_row_is_noop 7 "A" patchDark dbA5 userA rfl rfl⟩

/-! ## C5: partial preference update touches exactly the supplied fields -/

/-- C5: when the resolved user has a Preference row and the supplied values
satisfy the store's CHECK constraints, PUT /preferences answers 200 and the
stored row afterwards carries the supplied value for every field present in
the body and the prior value for every omitted field; users and sessions are
untouched. -/
theorem prefsUpdate_sparse (now : Int) (uid : String) (patch : PrefPatch)
    (db : DB) (u : UserRow) (p : PrefRow)
    (hu : findUserByUid db uid = some u)
    (hp : db.prefs.find? (fun q => q.userId == u.userId) = some p)
    (hvalid : patchValidB patch = true) :
    (prefsUpdate now uid patch db).1 = ⟨200, Body.prefsUpdatedOk⟩ ∧
    (prefsUpdate now uid patch db).2.users = db.users ∧
    (prefsUpdate now uid patch db).2.sessions = db.sessions ∧
    ∃ q : PrefRow,
      (prefsUpdate now uid patch db).2.prefs.find?
        (fun r => r.userId == u.userId) = some q ∧
      q.favoriteLevel = patch.favoriteLevel.getD p.favoriteLevel ∧
      q.defaultDuration = patch.defaultDuration.getD p.defaultDuration ∧
      q.enableHeatByDefault = patch.enableHeatByDefault.getD p.enableHeatByDefault ∧
      q.enableNotifications = patch.enableNotifications.getD p.enableNotifications ∧
      q.notificationTime = patch.notificationTime.getD p.notificationTime ∧
      q.theme = patch.theme.getD p.theme ∧
      q.language = patch.language.getD p.language ∧
      q.userId = p.userId ∧ q.preferenceId = p.preferenceId := by
  have hfind := find?_map_ite (fun r : PrefRow => r.userId == u.userId)
    (applyPatch now patch) (fun x hx => hx) db.prefs p hp
  have hred : prefsUpdate now uid patch db =
      (⟨200, Body.prefsUpdatedOk⟩,
       { db with prefs := (db.prefs.map
          (fun q => if q.userId == u.userId then applyPatch now patch q
                    else q)) }) := by
    simp only [prefsUpdate, hu, hvalid, Bool.not_true, Bool.and_false,
      Bool.false_eq_true, if_false]
  rw [hred]
  exact ⟨rfl, rfl, rfl, applyPatch now patch p, hfind, rfl, rfl, rfl, rfl,
    rfl, rfl, rfl, rfl, rfl⟩

/-- C5 witness: `userA` with the stored row `prefA`; the update
`{theme: "dark"}` changes exactly the theme (plus the always-set
`updated_at`) and retains every other field. -/
theorem prefsUpdate_sparse_witness :
    (findUserByUid dbA3 "A" = some userA ∧
     dbA3.prefs.find? (fun q => q.userId == userA.userId) = some prefA ∧
     patchValidB patchDark = true) ∧
    ((prefsUpdate 9 "A" patchDark dbA3).1 = ⟨200, Body.prefsUpdatedOk⟩ ∧
     (prefsUpdate 9 "A" patchDark dbA3).2.users = dbA3.users ∧
     (prefsUpdate 9 "A" patchDark dbA3).2.sessions = dbA3.sessions ∧
     ∃ q : PrefRow,
       (prefsUpdate 9 "A" patchDark dbA3).2.prefs.find?
         (fun r => r.userId == userA.userId) = some q ∧
       q.favoriteLevel = patchDark.favoriteLevel.getD prefA.favoriteLevel ∧
       q.defaultDuration = patchDark.defaultDuration.getD prefA.defaultDuration ∧
       q.enableHeatByDefault =
         patchDark.enableHeatByDefault.getD prefA.enableHeatByDefault ∧
       q.enableNotifications =
         patchDark.enableNotifications.getD prefA.enableNotifications ∧
       q.notificationTime = patchDark.notificationTime.getD prefA.notificationTime ∧
       q.theme = patchDark.theme.getD prefA.theme ∧
       q.language = patchDark.language.getD prefA.language ∧
       q.userId = prefA.userId ∧ q.preferenceId = prefA.preferenceId) ∧
    (prefsUpdate 9 "A" patchDark dbA3).2.prefs =
      [{ prefA with theme := "dark", updatedAt := 9 }] :=
  ⟨⟨rfl, rfl, rfl⟩,
   prefsUpdate_sparse 9 "A" patchDark dbA3 userA prefA rfl rfl rfl,
   by decide⟩

/-! ## C6: preference read creates the defaults row once -/

/-- C6: reading preferences for a user with no Preference row creates exactly
one row with the fixed defaults (level 3, duration 15, heat off,
notifications on, time 20:00, theme light, language vi) and returns them; a
read finding an existing row returns it without writing; and a repeated read
leaves the store exactly as the first read left it. -/
theorem prefsGet_upsert_on_read (now now2 : Int) (uid : String) (db : DB)
    (u : UserRow) (hu : findUserByUid db uid = some u) :
    (db.prefs.any (fun q => q.userId == u.userId) = false →
      prefsGet now uid db =
        (⟨200, Body.prefsOk ⟨3, 15, false, true, "20:00", "light", "vi"⟩⟩,
         { db with
             prefs := db.prefs ++ [defaultPrefRow now u.userId db.nextPrefId],
             nextPrefId := db.nextPrefId + 1 })) ∧
    (∀ p : PrefRow, db.prefs.find? (fun q => q.userId == u.userId) = some p →
      prefsGet now uid db = (⟨200, Body.prefsOk (prefsView p)⟩, db)) ∧
    (prefsGet now2 uid (prefsGet now uid db).2).2 = (prefsGet now uid db).2 := by
  refine ⟨?_, ?_, ?_⟩
  · intro hno
    have hfn := (any_eq_false_iff_find?_eq_none _ _).mp hno
    simp [prefsGet, hu, hfn, prefsView, defaultPrefRow]
  · intro p hp
    simp [prefsGet, hu, hp]
  · rcases hfp : db.prefs.find? (fun q => q.userId == u.userId) with _ | p
    · have hu2 : findUserByUid
          { db with
              prefs := db.prefs ++ [defaultPrefRow now u.userId db.nextPrefId],
              nextPrefId := db.nextPrefId + 1 } uid = some u := hu
      have hfind2 :
          (db.prefs ++ [defaultPrefRow now u.userId db.nextPrefId]).find?
            (fun q => q.userId == u.userId) =
            some (defaultPrefRow now u.userId db.nextPrefId) := by
        rw [find?_append_of_none _ _ _ hfp]
        simp [defaultPrefRow]
      simp [prefsGet, hu, hfp, hu2, hfind2]
    · simp [prefsGet, hu, hfp]

/-- C6 witness: `userA` with five sessions and no preference row — the first
read creates the defaults row, an existing row is returned as stored, and a
second read changes nothing. -/
theorem prefsGet_upsert_on_read_witness :
    findUserByUid dbA5 "A" = some userA ∧
    ((dbA5.prefs.any (fun q => q.userId == userA.userId) = false →
      prefsGet 7 "A" dbA5 =
        (⟨200, Body.prefsOk ⟨3, 15, false, true, "20:00", "light", "vi"⟩⟩,
         { dbA5 with
             prefs := dbA5.prefs ++ [defaultPrefRow 7 userA.userId dbA5.nextPrefId],
             nextPrefId := dbA5.nextPrefId + 1 })) ∧
    (∀ p : PrefRow, dbA5.prefs.find? (fun q => q.userId == userA.userId) = some p →
      prefsGet 7 "A" dbA5 = (⟨200, Body.prefsOk (prefsView p)⟩, dbA5)) ∧
    (prefsGet 8 "A" (prefsGet 7 "A" dbA5).2).2 = (prefsGet 7 "A" dbA5).2) :=
  ⟨rfl, prefsGet_upsert_on_read 7 8 "A" dbA5 userA rfl⟩

/-! ## C8: session list pagination and ordering -/

/-- C8: GET /sessions is paginated by the `limit`/`offset` query parameters
with defaults 50 and 0, and returns the user's sessions ordered by start time
descending: the returned rows are a sorted-descending selection of
`min limit (own - offset)` of the user's own rows, and for `userA` with five
sessions, `limit=2&offset=0` returns exactly the two most recently started
ones. -/
theorem sessionsList_paginated (db : DB) (uid : String) (u : UserRow)
    (limitQ offsetQ : Option Int)
    (hu : findUserByUid db uid = some u) :
    sessionsList uid none none db = sessionsList uid (some 50) (some 0) db ∧
    (∃ rows : List SessionRow,
      (sessionsList uid limitQ offsetQ db).1 =
        ⟨200, Body.sessionsOk rows.length (rows.map sessionView)⟩ ∧
      List.Sorted startedDesc rows ∧
      rows.length = min (jsParseIntOr limitQ 50).toNat
        ((db.sessions.filter (fun s => s.userId == u.userId)).length -
          (jsParseIntOr offsetQ 0).toNat) ∧
      ∀ s ∈ rows, s ∈ db.sessions.filter (fun s => s.userId == u.userId)) ∧
    (sessionsList "A" (some 2) (some 0) dbA5).1 =
      ⟨200, Body.sessionsOk 2
        [sessionView (mkSessA 2 50), sessionView (mkSessA 5 40)]⟩ := by
  have hsub :
      (((sortByStartedDesc
          (db.sessions.filter (fun s => s.userId == u.userId))).drop
        (jsParseIntOr offsetQ 0).toNat).take (jsParseIntOr limitQ 50).toNat).Sublist
        (sortByStartedDesc (db.sessions.filter (fun s => s.userId == u.userId))) :=
    (List.take_sublist _ _).trans (List.drop_sublist _ _)
  refine ⟨rfl, ⟨(((sortByStartedDesc
      (db.sessions.filter (fun s => s.userId == u.userId))).drop
      (jsParseIntOr offsetQ 0).toNat).take (jsParseIntOr limitQ 50).toNat),
    ?_, ?_, ?_, ?_⟩, by decide⟩
  · simp [sessionsList, hu]
  · exact List.Pairwise.sublist hsub
      (List.sorted_insertionSort startedDesc _)
  · simp only [sortByStartedDesc, List.length_take, List.length_drop,
      (List.perm_insertionSort startedDesc _).length_eq]
  · intro s hs
    exact (List.perm_insertionSort startedDesc _).mem_iff.mp (hsub.subset hs)

/-- C8 witness: the theorem at `dbA5` (five sessions for `userA`) with
`limit=2`, `offset=0`. -/
theorem sessionsList_paginated_witness :
    findUserByUid dbA5 "A" = some userA ∧
    (sessionsList "A" none none dbA5 = sessionsList "A" (some 50) (some 0) dbA5 ∧
    (∃ rows : List SessionRow,
      (sessionsList "A" (some 2) (some 0) dbA5).1 =
        ⟨200, Body.sessionsOk rows.length (rows.map sessionView)⟩ ∧
      List.Sorted startedDesc rows ∧
      rows.length = min (jsParseIntOr (some 2) 50).toNat
        ((dbA5.sessions.filter (fun s => s.userId == userA.userId)).length -
          (jsParseIntOr (some 0) 0).toNat) ∧
      ∀ s ∈ rows, s ∈ dbA5.sessions.filter (fun s => s.userId == userA.userId)) ∧
    (sessionsList "A" (some 2) (some 0) dbA5).1 =
      ⟨200, Body.sessionsOk 2
        [sessionView (mkSessA 2 50), sessionView (mkSessA 5 40)]⟩) :=
  ⟨rfl, sessionsList_paginated dbA5 "A" userA (some 2) (some 0) rfl⟩

/-! ## C2: per-user scoping and two-run noninterference -/

/-- Two database states that agree on the resolution of `uid` and on every
row owned by the resolved user, while other users' rows (and hence the serial
sequences) may differ arbitrarily. -/
def ownAgree (uid : String) (db1 db2 : DB) : Prop :=
  (db1.users.filter (fun v => v.firebaseUid == uid) =
    db2.users.filter (fun v => v.firebaseUid == uid)) ∧
  ∀ u : UserRow, findUserByUid db1 uid = some u →
    (db1.sessions.filter (fun s => s.userId == u.userId) =
      db2.sessions.filter (fun s => s.userId == u.userId)) ∧
    (db1.prefs.filter (fun p => p.userId == u.userId) =
      db2.prefs.filter (fun p => p.userId == u.userId))

/-- C2 (amended): session list, session statistics, analytics summary,
preference read and preference update are two-run noninterfering — with the
same token-resolved identity and the same caller parameters, two stores
agreeing on the resolved user's own rows produce identical responses, however
the other users' rows differ. (Session create is excluded: its response
carries the freshly generated serial session_id, which other users' inserts
advance.) -/
theorem scoped_handlers_noninterference (uid : String) (db1 db2 : DB)
    (limitQ offsetQ daysQ : Option Int) (now : Int) (patch : PrefPatch)
    (h : ownAgree uid db1 db2) :
    (sessionsList uid limitQ offsetQ db1).1 =
      (sessionsList uid limitQ offsetQ db2).1 ∧
    (sessionsStatistics now uid daysQ db1).1 =
      (sessionsStatistics now uid daysQ db2).1 ∧
    (analyticsSummary uid db1).1 = (analyticsSummary uid db2).1 ∧
    (prefsGet now uid db1).1 = (prefsGet now uid db2).1 ∧
    (prefsUpdate now uid patch db1).1 = (prefsUpdate now uid patch db2).1 := by
  obtain ⟨husers, hown⟩ := h
  have hfind : findUserByUid db1 uid = findUserByUid db2 uid := by
    unfold findUserByUid
    rw [find?_eq_head?_filter, find?_eq_head?_filter, husers]
  rcases hcase : findUserByUid db2 uid with _ | u
  · rw [hcase] at hfind
    refine ⟨?_, ?_, ?_, ?_, ?_⟩ <;>
      simp [sessionsList, sessionsStatistics, analyticsSummary, prefsGet,
        prefsUpdate, hfind, hcase]
  · rw [hcase] at hfind
    obtain ⟨hsess, hpref⟩ := hown u hfind
    have hprefFind : db1.prefs.find? (fun p => p.userId == u.userId) =
        db2.prefs.find? (fun p => p.userId == u.userId) := by
      rw [find?_eq_head?_filter, find?_eq_head?_filter, hpref]
    have hprefAny : db1.prefs.any (fun p => p.userId == u.userId) =
        db2.prefs.any (fun p => p.userId == u.userId) := by
      rw [any_eq_not_isEmpty_filter, any_eq_not_isEmpty_filter, hpref]
    have hsessTime : ∀ c : Int,
        db1.sessions.filter
          (fun s => s.userId == u.userId && decide (c ≤ s.startedAt)) =
        db2.sessions.filter
          (fun s => s.userId == u.userId && decide (c ≤ s.startedAt)) := by
      intro c
      rw [filter_and_eq_filter_filter, filter_and_eq_filter_filter, hsess]
    refine ⟨?_, ?_, ?_, ?_, ?_⟩
    · simp only [sessionsList, hfind, hcase, hsess]
    · simp only [sessionsStatistics, hfind, hcase, hsessTime]
    · simp only [analyticsSummary, hfind, hcase, hsess]
    · rcases hp : db2.prefs.find? (fun p => p.userId == u.userId) with _ | p
      · rw [hp] at hprefFind
        simp [prefsGet, hfind, hcase, hprefFind, hp, prefsView, defaultPrefRow]
      · rw [hp] at hprefFind
        simp [prefsGet, hfind, hcase, hprefFind, hp]
    · simp only [prefsUpdate, hfind, hcase, hprefAny]
      split
      · rfl
      · rfl

/-- A second registered user `B`. -/
def userB : UserRow :=
  { userId := 2, firebaseUid := "B", email := "b@x.com", name := "b",
    age := none, weight := none, height := none, gender := none, createdAt := 0 }

/-- A session of `userB`. -/
def sessB : SessionRow :=
  { sessionId := 1, userId := 2, level := 4, duration := 20,
    heatEnabled := false, rotateEnabled := false, caloriesBurned := 10,
    notes := none, startedAt := 5, endedAt := 705, createdAt := 5 }

/-- A store holding only `userA`, with no sessions. -/
def dbOnlyA : DB :=
  { users := [userA], sessions := [], prefs := [],
    nextUserId := 2, nextSessionId := 1, nextPrefId := 1 }

/-- The same store after `userB` registered and logged one session — all of
`userA`'s rows are untouched. -/
def dbAplusB : DB :=
  { users := [userA, userB], sessions := [sessB], prefs := [],
    nextUserId := 3, nextSessionId := 2, nextPrefId := 1 }

/-- A valid session-creation request body. -/
def okBody : SessionBody := ⟨3, 10, false, false, 5, none, 100, 700⟩

theorem ownAgree_A_concrete : ownAgree "A" dbOnlyA dbAplusB := by
  refine ⟨by decide, ?_⟩
  intro u hu
  have h0 : findUserByUid dbOnlyA "A" = some userA := rfl
  rw [h0] at hu
  rw [← Option.some.inj hu]
  exact ⟨by decide, by decide⟩

/-- C2 counterexample. The claim covers session create among the scoped
handlers and asserts that changing another user's rows leaves the response
unchanged. But POST /sessions returns the inserted row (`RETURNING *`)
including its serial `session_id`, and the serial sequence advances when any
user inserts: after `userB` logs one session, the same request by `userA`
receives a different `session_id`, so the two responses differ even though
every row `userA` owns is identical in both stores. -/
theorem sessionsCreate_depends_on_other_users_rows :
    ownAgree "A" dbOnlyA dbAplusB ∧
    (sessionsCreate 0 "A" okBody dbOnlyA).1 ≠
      (sessionsCreate 0 "A" okBody dbAplusB).1 := by
  refine ⟨ownAgree_A_concrete, ?_⟩
  decide

/-- C2 witness: the amended theorem at the concrete pair of stores that
differ exactly by `userB`'s registration and session. -/
theorem scoped_handlers_noninterference_witness :
    ownAgree "A" dbOnlyA dbAplusB ∧
    ((sessionsList "A" (some 2) none dbOnlyA).1 =
      (sessionsList "A" (some 2) none dbAplusB).1 ∧
    (sessionsStatistics 7 "A" none dbOnlyA).1 =
      (sessionsStatistics 7 "A" none dbAplusB).1 ∧
    (analyticsSummary "A" dbOnlyA).1 = (analyticsSummary "A" dbAplusB).1 ∧
    (prefsGet 7 "A" dbOnlyA).1 = (prefsGet 7 "A" dbAplusB).1 ∧
    (prefsUpdate 7 "A" patchDark dbOnlyA).1 =
      (prefsUpdate 7 "A" patchDark dbAplusB).1) :=
  ⟨ownAgree_A_concrete,
   scoped_handlers_noninterference "A" dbOnlyA dbAplusB (some 2) none none 7
     patchDark ownAgree_A_concrete⟩

end MassageBe
